import Mathlib

/-!
Shallow embedding of the Soundarc archival-audio application
(src/App.tsx and src/services/geminiService.ts together with the
express API handlers bundled in the same sources).

Times, confidences and tempo values are modelled as rationals; JS
strings as Lean strings; JS objects with optional keys as structures
with Option fields; the flat descriptive-metadata record (accessed
dynamically by key in the source) as an association list from key to
string value.
-/

namespace Soundarc

/-- The closed set of segment types from types.ts. -/
inductive SegmentType where
  | Speech
  | Tune
  | Song
  | Silence
  | Other
deriving DecidableEq, Repr

/-- Review status values from types.ts. -/
inductive HumanReviewStatus where
  | unreviewed
  | approved
  | edited
deriving DecidableEq, Repr

/-- Provenance record from types.ts. -/
structure Provenance where
  generated_by : String
  generated_at : String
  generation_method : String
  human_review_status : HumanReviewStatus
  human_reviewer : Option String := none
deriving DecidableEq, Repr

/-- The optional segment_metadata annex from types.ts; every field optional. -/
structure SegmentMetadata where
  tune_type : Option String := none
  meter : Option String := none
  tempo_bpm_range : Option (List ℚ) := none
  instruments : Option (List String) := none
  region : Option String := none
  performers : Option (List String) := none
  evidence : Option (List String) := none
  notes : Option String := none
deriving DecidableEq, Repr

/-- StructuralSegment from types.ts, the canonical segment shape. -/
structure StructuralSegment where
  id : String
  start_time : ℚ
  end_time : ℚ
  type : SegmentType
  summary : String
  confidence : ℚ
  alternatives : Option (List String) := none
  notes : Option String := none
  provenance : Provenance
  segment_metadata : Option SegmentMetadata := none
deriving DecidableEq, Repr

/-- A Partial StructuralSegment as accepted by updateSegment: a key that
is absent from the patch is modelled as none at the outer Option layer. -/
structure SegmentPatch where
  id : Option String := none
  start_time : Option ℚ := none
  end_time : Option ℚ := none
  type : Option SegmentType := none
  summary : Option String := none
  confidence : Option ℚ := none
  alternatives : Option (Option (List String)) := none
  notes : Option (Option String) := none
  provenance : Option Provenance := none
  segment_metadata : Option (Option SegmentMetadata) := none
deriving DecidableEq, Repr

def emptyPatch : SegmentPatch := {}

/-- The per-segment update performed inside updateSegment in App.tsx.
In the source the explicit provenance literal is written after the
spread of the updates object, so a provenance value inside the patch is
always overwritten by the original provenance with status forced to
edited; every other key of the patch lands on the segment. -/
def patchSeg (u : SegmentPatch) (s : StructuralSegment) : StructuralSegment :=
  { id := u.id.getD s.id
    start_time := u.start_time.getD s.start_time
    end_time := u.end_time.getD s.end_time
    type := u.type.getD s.type
    summary := u.summary.getD s.summary
    confidence := u.confidence.getD s.confidence
    alternatives := u.alternatives.getD s.alternatives
    notes := u.notes.getD s.notes
    segment_metadata := u.segment_metadata.getD s.segment_metadata
    provenance := { s.provenance with human_review_status := HumanReviewStatus.edited } }

/-- Stable insertion of a segment into a list, placing it before the
first element whose start_time is not smaller: this realises the ES2019
stable sort with comparator a.start_time - b.start_time used by
updateSegment. -/
def insertByStart (x : StructuralSegment) : List StructuralSegment → List StructuralSegment
  | [] => [x]
  | y :: ys => if y.start_time < x.start_time then y :: insertByStart x ys else x :: y :: ys

/-- Stable sort by start_time ascending, the semantics of
Array.prototype.sort with comparator a.start_time - b.start_time. -/
def sortByStart : List StructuralSegment → List StructuralSegment
  | [] => []
  | x :: xs => insertByStart x (sortByStart xs)

/-- Sortedness by start_time ascending, the spec invariant. -/
def sortedByStart (l : List StructuralSegment) : Prop :=
  List.Pairwise (fun a b => a.start_time ≤ b.start_time) l

instance (l : List StructuralSegment) : Decidable (sortedByStart l) :=
  List.instDecidablePairwise l

/-- The list-level body of updateSegment in App.tsx: map the patch over
segments whose id matches, then sort by start_time. -/
def updateSegments (segId : String) (updates : SegmentPatch)
    (segs : List StructuralSegment) : List StructuralSegment :=
  sortByStart (segs.map fun s => if s.id = segId then patchSeg updates s else s)

theorem mem_insertByStart {a x : StructuralSegment} {l : List StructuralSegment} :
    a ∈ insertByStart x l ↔ a = x ∨ a ∈ l := by
  induction l with
  | nil => simp [insertByStart]
  | cons y ys ih =>
    by_cases h : y.start_time < x.start_time
    · simp only [insertByStart, if_pos h, List.mem_cons, ih]
      tauto
    · simp only [insertByStart, if_neg h, List.mem_cons]

theorem mem_sortByStart {a : StructuralSegment} {l : List StructuralSegment} :
    a ∈ sortByStart l ↔ a ∈ l := by
  induction l with
  | nil => simp [sortByStart]
  | cons x xs ih => simp [sortByStart, mem_insertByStart, ih]

theorem sortedByStart_insertByStart {x : StructuralSegment} {l : List StructuralSegment}
    (h : sortedByStart l) : sortedByStart (insertByStart x l) := by
  induction l with
  | nil => simp [insertByStart, sortedByStart]
  | cons y ys ih =>
    rcases List.pairwise_cons.mp h with ⟨hy, hys⟩
    by_cases hlt : y.start_time < x.start_time
    · simp only [insertByStart, if_pos hlt]
      refine List.pairwise_cons.mpr ⟨?_, ih hys⟩
      intro b hb
      rcases mem_insertByStart.mp hb with rfl | hb
      · exact le_of_lt hlt
      · exact hy b hb
    · simp only [insertByStart, if_neg hlt]
      refine List.pairwise_cons.mpr ⟨?_, h⟩
      intro b hb
      rcases List.mem_cons.mp hb with rfl | hb
      · exact le_of_not_lt hlt
      · exact le_trans (le_of_not_lt hlt) (hy b hb)

theorem sortedByStart_sortByStart (l : List StructuralSegment) :
    sortedByStart (sortByStart l) := by
  induction l with
  | nil => simp [sortByStart, sortedByStart]
  | cons x xs ih => exact sortedByStart_insertByStart ih

theorem insertByStart_of_le {x y : StructuralSegment} {ys : List StructuralSegment}
    (h : x.start_time ≤ y.start_time) : insertByStart x (y :: ys) = x :: y :: ys := by
  simp [insertByStart, not_lt.mpr h]

theorem sortByStart_of_sorted {l : List StructuralSegment}
    (h : sortedByStart l) : sortByStart l = l := by
  induction l with
  | nil => rfl
  | cons x xs ih =>
    rcases List.pairwise_cons.mp h with ⟨hx, hxs⟩
    have hxs' : sortByStart xs = xs := ih hxs
    cases xs with
    | nil => rfl
    | cons y ys =>
      simp only [sortByStart] at hxs' ⊢
      rw [hxs', insertByStart_of_le (hx y (List.mem_cons_self y ys))]

/-- The fixed, ordered CSV header schema from App.tsx. -/
def ARCHIVAL_CSV_HEADERS : List String :=
  ["descriptor", "contributor", "coverage", "creator", "date", "IE_format",
   "description", "identifier", "language", "publisher", "relation", "rights",
   "source", "subject", "title", "type", "FullFolderOrFilePath",
   "isadg.identifier", "isadg.accessionNumber", "isadg.title",
   "isadg.levelOfDescription", "isadg.extentAndMedium", "isadg.repository",
   "isadg.archivalHistory", "isadg.acquisition", "isadg.scopeAndContent",
   "isadg.appraisal", "isadg.accruals", "isadg.arrangement",
   "isadg.accessConditions", "isadg.reproductionConditions", "isadg.language",
   "isadg.script", "isadg.languageNote", "isadg.findingAids",
   "isadg.locationOfOriginals", "isadg.locationOfCopies",
   "isadg.relatedUnitsOfDescription", "isadg.publicationNote",
   "isadg.digitalObjectURI", "isadg.generalNote", "subjectAccessPoints",
   "placeAccessPoints", "nameAccessPoints", "isadg.genreAccessPoints",
   "isadg.descriptionIdentifier", "isadg.institutionIdentifier",
   "isadg.descriptionStatus", "isadg.levelofDetail", "isadg.revisionHistory",
   "isadg.languageOfDescription", "isadg.scriptOfDescription", "isadg.sources",
   "isadg.archivistNote", "isadg.publicationStatus", "isadg.physicalObjectName",
   "isadg.physicalObjectLocation", "isadg.physicalObjectType",
   "isadg.alternativeIdentifier", "isadg.alternativeIdentifierLabels",
   "eventDates", "eventTypes", "eventStartDates", "eventEndDates",
   "isadg.eventActors", "isadg.eventActorHistories", "isadg.culture",
   "atom.legacyId", "atom.parentId", "atom.qubitParentSlug", "repository",
   "dc.coverage", "dc.language", "dc.subject", "dcterms.isPartOf", "dc.rights",
   "dc.format", "dc.contributor", "dc.description", "dc.creator",
   "dc.publisher", "dc.title", "dc.type", "dc.identifier", "dc.date", "parts",
   "md5Checksum", "technicalNotes", "Notes", "isadg.physicalCharacteristics",
   "isadg.rules", "isadg.alternativeTitle"]

/-- The flat string-valued descriptive-metadata record, accessed
dynamically by key in App.tsx; modelled as an association list in JS
object key order. -/
def DescriptiveMetadata : Type := List (String × String)

instance : DecidableEq DescriptiveMetadata :=
  inferInstanceAs (DecidableEq (List (String × String)))

/-- Dynamic key read on the descriptive record, none when the key is absent. -/
def dmGet (m : DescriptiveMetadata) (k : String) : Option String :=
  (List.find? (fun p => p.1 = k) m).map (fun p => p.2)

/-- Dynamic key write on the descriptive record: an existing key keeps
its position, a new key is appended, matching JS object assignment. -/
def dmSet (m : DescriptiveMetadata) (k v : String) : DescriptiveMetadata :=
  match m with
  | [] => [(k, v)]
  | p :: rest => if p.1 = k then (k, v) :: rest else p :: dmSet rest k v

/-- Several key writes in order, as in an object-literal spread. -/
def dmSetMany (m : DescriptiveMetadata) (kvs : List (String × String)) :
    DescriptiveMetadata :=
  kvs.foldl (fun d kv => dmSet d kv.1 kv.2) m

/-- JS short-circuit or on an optional string: a missing value and the
empty string are both falsy and fall through to the default. -/
def jsOrStr (v : Option String) (dflt : String) : String :=
  match v with
  | some s => if s = "" then dflt else s
  | none => dflt

/-- The character-membership test val.includes used by exportCSV. -/
def containsChar (v : String) (c : Char) : Bool :=
  v.data.contains c

/-- val.replace with a global regex that doubles every double quote. -/
def escapeQuotes (v : String) : String :=
  String.join (v.data.map fun c => if c = '"' then "\"\"" else String.singleton c)

/-- The per-value serialization inside exportCSV: values containing a
comma, double quote or newline are wrapped in double quotes with inner
quotes doubled; other values pass through verbatim. -/
def csvEscape (val : String) : String :=
  if containsChar val ',' || containsChar val '"' || containsChar val '\n' then
    "\"" ++ escapeQuotes val ++ "\""
  else val

/-- One CSV cell of the export row: the value of the header key, with a
missing key serialized as the empty string (the JS or-with-empty-string). -/
def csvField (m : DescriptiveMetadata) (h : String) : String :=
  csvEscape ((dmGet m h).getD "")

/-- The data row built by exportCSV. -/
def exportRow (m : DescriptiveMetadata) : String :=
  String.intercalate "," (ARCHIVAL_CSV_HEADERS.map (csvField m))

/-- The full CSV content built by exportCSV: header row then data row. -/
def exportCSVContent (m : DescriptiveMetadata) : String :=
  String.intercalate "," ARCHIVAL_CSV_HEADERS ++ "\n" ++ exportRow m

/-- TechnicalMetadata from types.ts (container format kept as a string,
as the source casts the file extension to it unchecked). -/
structure TechnicalMetadata where
  container_format : String
  codec : String
  sample_rate_hz : Nat
  bit_depth : Nat
  channels : Nat
  duration_seconds : ℚ
  file_size_bytes : Nat
  checksum : String
  equipment : Option String := none
  software : Option String := none
  processing_notes : List String
deriving DecidableEq, Repr

/-- AdministrativeMetadata from types.ts. -/
structure AdministrativeMetadata where
  rights_holder : String
  copyright_status : String
  license : String
  access_level : String
  restrictions : String
  donor_agreement_ref : Option String := none
deriving DecidableEq, Repr

/-- ArchivalAudioItem from types.ts; the structural wrapper object is
flattened to its single segments field. -/
structure ArchivalAudioItem where
  descriptive : DescriptiveMetadata
  technical : TechnicalMetadata
  administrative : AdministrativeMetadata
  structural : List StructuralSegment
deriving DecidableEq

/-- AnalysisState from types.ts. -/
inductive AnalysisState where
  | IDLE
  | UPLOADING
  | COMPUTING_CHECKSUM
  | TRANSCRIBING
  | ANALYZING
  | COMPLETED
  | ERROR
deriving DecidableEq, Repr

/-- The metadata tab selector of the App component. -/
inductive Tab where
  | desc
  | tech
  | admin
  | struct
deriving DecidableEq, Repr

/-- The React state of the App component that the claims observe. -/
structure AppModel where
  state : AnalysisState
  item : Option ArchivalAudioItem
  error : Option String
  audioUrl : Option String
  currentTime : ℚ
  isPlaying : Bool
  selectedSegmentId : Option String
  activeTab : Tab
  editingSegmentId : Option String
  isNarrating : Bool
deriving DecidableEq

/-- resetApp from App.tsx: clears state, item, error, url, playback and
selection fields in place; isNarrating is not touched. -/
def resetApp (app : AppModel) : AppModel :=
  { app with
    state := AnalysisState.IDLE
    item := none
    error := none
    audioUrl := none
    currentTime := 0
    isPlaying := false
    selectedSegmentId := none
    editingSegmentId := none
    activeTab := Tab.desc }

/-- The result shape returned by the analyze endpoint and consumed by
the analysis-completion handler. -/
structure AnalysisResult where
  description : String
  temporal_index : String
  segments : List StructuralSegment
deriving DecidableEq

/-- The initial descriptive record: every CSV header key seeded with the
empty string. -/
def initialDescriptive : DescriptiveMetadata :=
  ARCHIVAL_CSV_HEADERS.map (fun h => (h, ""))

/-- The JS string split on dot, first component, with the empty string
falling through to the default title. -/
def titleOfFileName (fileName : String) : String :=
  jsOrStr (some ((fileName.splitOn ".").headD "")) "Archival Record"

/-- The JS string split on dot, last component upper-cased, with the
empty string falling through to WAV. -/
def containerOfFileName (fileName : String) : String :=
  jsOrStr (some ((fileName.splitOn ".").getLastD "").toUpper) "WAV"

/-- The initialItem literal built in processBlob once the checksum and
duration are known; the identifier (built from the current year and a
random number in the source) is passed in as a parameter. -/
def initialItem (fileName identifier checksum : String) (duration : ℚ)
    (fileSize : Nat) : ArchivalAudioItem :=
  { descriptive :=
      dmSetMany initialDescriptive
        [("identifier", identifier),
         ("title", titleOfFileName fileName),
         ("description", "Awaiting semantic abstract..."),
         ("temporal_index", ""),
         ("transcript", ""),
         ("isadg.levelOfDescription", "Item"),
         ("isadg.repository", "Irish Traditional Music Archive"),
         ("isadg.language", "en"),
         ("rights", "In copyright"),
         ("dc.rights", "In copyright")]
    technical :=
      { container_format := containerOfFileName fileName
        codec := "PCM"
        sample_rate_hz := 48000
        bit_depth := 24
        channels := 2
        duration_seconds := duration
        file_size_bytes := fileSize
        checksum := checksum
        processing_notes := [] }
    administrative :=
      { rights_holder := "Preservation Institution"
        copyright_status := "Under Copyright"
        license := "Internal Review"
        access_level := "staff"
        restrictions := "" }
    structural := [] }

/-- The post-transcription item update in processBlob: store the
transcript and switch the description placeholder. -/
def setTranscript (transcript : String) (it : ArchivalAudioItem) :
    ArchivalAudioItem :=
  { it with
    descriptive :=
      dmSet (dmSet it.descriptive "transcript" transcript)
        "description" "Phasing semantic audit..." }

/-- The item update performed by the analysis-completion handler:
temporal index, description, the two synced ISADG fields, and the
segment collection replaced verbatim by the result segments (this is
the replaceAll of the spec; note that no sorting happens here). -/
def applyAnalysisResult (r : AnalysisResult) (it : ArchivalAudioItem) :
    ArchivalAudioItem :=
  { it with
    descriptive :=
      dmSetMany it.descriptive
        [("temporal_index", r.temporal_index),
         ("description", r.description),
         ("isadg.scopeAndContent", r.temporal_index),
         ("isadg.findingAids", r.temporal_index)]
    structural := r.segments }

/-- The success branch of the reader.onload analysis completion in
processBlob: a functional setItem that maps over the current item (so a
null item stays null), then an unconditional transition to COMPLETED. -/
def analysisCompletionSuccess (r : AnalysisResult) (app : AppModel) : AppModel :=
  { app with
    item := app.item.map (applyAnalysisResult r)
    state := AnalysisState.COMPLETED }

/-- The failure branch of the analysis completion: the provider message
prefixed and the terminal ERROR state. -/
def analysisCompletionFailure (msg : String) (app : AppModel) : AppModel :=
  { app with
    error := some ("Segmentation failed: " ++ msg)
    state := AnalysisState.ERROR }

/-- processBlob from App.tsx, with each asynchronous collaborator
outcome passed in explicitly: checksum computation (its failure is the
only ingest-setup failure distinguishable here), the transcription
call, and the segmentation call. An exception anywhere before the
reader callback lands in the single outer catch, which reports the
generic critical-ingest message. -/
def processBlob (fileName identifier url : String)
    (checksumRes : Except Unit String) (duration : ℚ) (fileSize : Nat)
    (transcribeRes : Except String String)
    (analyzeRes : Except String AnalysisResult) (app : AppModel) : AppModel :=
  let app0 := { app with state := AnalysisState.COMPUTING_CHECKSUM, error := none }
  match checksumRes with
  | Except.error _ =>
      { app0 with error := some "Critical ingest error.", state := AnalysisState.ERROR }
  | Except.ok checksum =>
    let app1 := { app0 with
      audioUrl := some url
      item := some (initialItem fileName identifier checksum duration fileSize) }
    let app2 := { app1 with state := AnalysisState.TRANSCRIBING }
    match transcribeRes with
    | Except.error _ =>
        { app2 with error := some "Critical ingest error.", state := AnalysisState.ERROR }
    | Except.ok transcript =>
      let app3 := { app2 with
        item := app2.item.map (setTranscript transcript)
        state := AnalysisState.ANALYZING }
      match analyzeRes with
      | Except.error msg => analysisCompletionFailure msg app3
      | Except.ok r => analysisCompletionSuccess r app3

/-- updateSegment from App.tsx lifted to the component state: a
functional setItem that patches matching segments and re-sorts. -/
def updateSegment (segId : String) (updates : SegmentPatch) (app : AppModel) :
    AppModel :=
  { app with item := app.item.map fun it =>
      { it with structural := updateSegments segId updates it.structural } }

/-- Display categories of the timeline view model. -/
inductive Category where
  | music
  | speech
  | other
deriving DecidableEq, Repr

/-- The category rule of the display projection in App.tsx. -/
def categoryOf (t : SegmentType) : Category :=
  if t = SegmentType.Tune ∨ t = SegmentType.Song then Category.music
  else if t = SegmentType.Speech then Category.speech
  else Category.other

/-- The string name of a segment type, as it appears in the JS value. -/
def segTypeName : SegmentType → String
  | SegmentType.Speech => "Speech"
  | SegmentType.Tune => "Tune"
  | SegmentType.Song => "Song"
  | SegmentType.Silence => "Silence"
  | SegmentType.Other => "Other"

/-- The display metadata sub-object of an AudioSegment from types.ts. -/
structure AudioSegmentMeta where
  description : String
  performer : Option String
  tuneType : Option String
  meter : Option String
  tempo : Option String
  instruments : Option (List String)
  region : Option String
  context : Option String
  evidence : Option (List String)
  alternatives : Option (List String)
deriving DecidableEq, Repr

/-- AudioSegment, the display shape from types.ts. -/
structure AudioSegment where
  id : String
  startTime : ℚ
  endTime : ℚ
  label : String
  category : Category
  confidence : ℚ
  metadata : AudioSegmentMeta
deriving DecidableEq, Repr

/-- The per-segment body of the useMemo display projection in App.tsx.
The tempo interpolation mirrors the JS template literal: a present but
empty tempo_bpm_range still renders, with the undefined lower bound
printed as the string undefined. -/
def projectSegment (s : StructuralSegment) : AudioSegment :=
  { id := s.id
    startTime := s.start_time
    endTime := s.end_time
    label := segTypeName s.type
    category := categoryOf s.type
    confidence := s.confidence
    metadata :=
      { description := s.summary
        performer := (s.segment_metadata.bind fun m => m.performers).bind List.head?
        tuneType := s.segment_metadata.bind fun m => m.tune_type
        meter := s.segment_metadata.bind fun m => m.meter
        tempo :=
          match s.segment_metadata.bind fun m => m.tempo_bpm_range with
          | none => none
          | some r =>
            some ((match r.head? with
                   | some x => toString x
                   | none => "undefined") ++ " BPM")
        instruments := s.segment_metadata.bind fun m => m.instruments
        region := s.segment_metadata.bind fun m => m.region
        context := s.segment_metadata.bind fun m => m.notes
        evidence := s.segment_metadata.bind fun m => m.evidence
        alternatives := s.alternatives } }

/-- The whole useMemo projection over the current item. -/
def projectSegments (app : AppModel) : List AudioSegment :=
  ((app.item.map fun it => it.structural.map projectSegment)).getD []

/-- A raw segment as returned by the model inside the analyze endpoint:
every field may be absent, including a provenance block the model might
volunteer. -/
structure RawSegment where
  id : Option String := none
  start_time : Option ℚ := none
  end_time : Option ℚ := none
  type : Option SegmentType := none
  summary : Option String := none
  confidence : Option ℚ := none
  alternatives : Option (List String) := none
  notes : Option String := none
  segment_metadata : Option SegmentMetadata := none
  provenance : Option Provenance := none
deriving DecidableEq, Repr

/-- The metadata object with every field absent, the JS empty object. -/
def emptySegmentMetadata : SegmentMetadata := {}

/-- The per-segment normalization inside the analyze endpoint handler:
defaults for missing fields, a synthesized sequential id from the
zero-based map index, and a provenance record built fresh (any raw
provenance is discarded). -/
def normalizeOne (now : String) (index : Nat) (seg : RawSegment) :
    StructuralSegment :=
  { id := jsOrStr seg.id ("seg_" ++ toString (index + 1))
    start_time := seg.start_time.getD 0
    end_time := seg.end_time.getD 0
    type := seg.type.getD SegmentType.Speech
    summary := jsOrStr seg.summary "Segment summary unavailable."
    confidence := seg.confidence.getD 0.6
    alternatives := seg.alternatives
    notes := seg.notes
    segment_metadata := some (seg.segment_metadata.getD emptySegmentMetadata)
    provenance :=
      { generated_by := "gemini-2.5-flash"
        generated_at := now
        generation_method := "segment_analysis"
        human_review_status := HumanReviewStatus.unreviewed
        human_reviewer := none } }

/-- The segments.map of the analyze endpoint handler, with its index. -/
def normalizeSegments (now : String) (raws : List RawSegment) :
    List StructuralSegment :=
  raws.enum.map fun p => normalizeOne now p.1 p.2

/-! Sample data used by concrete counterexamples and witnesses. -/

def sampleProv : Provenance :=
  { generated_by := "gemini-2.5-flash"
    generated_at := "2024-01-01T00:00:00Z"
    generation_method := "segment_analysis"
    human_review_status := HumanReviewStatus.unreviewed }

def segLo : StructuralSegment :=
  { id := "seg_1"
    start_time := 5
    end_time := 8
    type := SegmentType.Speech
    summary := "talk"
    confidence := (1 : ℚ)/2
    provenance := sampleProv }

def segHi : StructuralSegment :=
  { id := "seg_2"
    start_time := 10
    end_time := 20
    type := SegmentType.Tune
    summary := "a reel"
    confidence := (4 : ℚ)/5
    provenance := sampleProv }

def sampleItem : ArchivalAudioItem :=
  initialItem "rec.wav" "ARCH_2024_1" "abc123" 120 1000

def newSessionItem : ArchivalAudioItem :=
  initialItem "new.wav" "ARCH_2024_2" "def456" 60 500

def unsortedResult : AnalysisResult :=
  { description := "d", temporal_index := "t", segments := [segHi, segLo] }

def staleResult : AnalysisResult :=
  { description := "stale description"
    temporal_index := "stale index"
    segments := [segLo] }

def runningApp : AppModel :=
  { state := AnalysisState.ANALYZING
    item := some sampleItem
    error := none
    audioUrl := some "blob:1"
    currentTime := 0
    isPlaying := false
    selectedSegmentId := none
    activeTab := Tab.desc
    editingSegmentId := none
    isNarrating := false }

def idleApp : AppModel :=
  { state := AnalysisState.IDLE
    item := none
    error := none
    audioUrl := none
    currentTime := 0
    isPlaying := false
    selectedSegmentId := none
    activeTab := Tab.desc
    editingSegmentId := none
    isNarrating := false }

def confPatch : SegmentPatch := { confidence := some ((9 : ℚ)/10) }

def tuneMeta : SegmentMetadata :=
  { tempo_bpm_range := some [80, 100], performers := some ["Fiddler"] }

def tuneSeg : StructuralSegment :=
  { id := "seg_3"
    start_time := 30
    end_time := 40
    type := SegmentType.Tune
    summary := "a jig"
    confidence := (7 : ℚ)/10
    provenance := sampleProv
    segment_metadata := some tuneMeta }

def rawBare : RawSegment := {}

def rawWithProv : RawSegment :=
  { provenance := some
      { generated_by := "other-model"
        generated_at := "1999-01-01T00:00:00Z"
        generation_method := "manual"
        human_review_status := HumanReviewStatus.approved
        human_reviewer := some "bob" } }

/-- Shared helper: a segment whose id matches is sent to its patched
form, which survives into the sorted output of updateSegments. -/
theorem patchSeg_mem_updateSegments {segs : List StructuralSegment}
    {segId : String} {u : SegmentPatch} {s : StructuralSegment}
    (hs : s ∈ segs) (hid : s.id = segId) :
    patchSeg u s ∈ updateSegments segId u segs := by
  unfold updateSegments
  rw [mem_sortByStart]
  refine List.mem_map.mpr ⟨s, hs, ?_⟩
  simp [hid]

/-- Shared helper: mapping the conditional patch over a list with no
matching id is the identity. -/
theorem map_patch_of_no_match {segId : String} {u : SegmentPatch} :
    ∀ (l : List StructuralSegment), (∀ s ∈ l, s.id ≠ segId) →
      l.map (fun s => if s.id = segId then patchSeg u s else s) = l := by
  intro l hl
  induction l with
  | nil => rfl
  | cons a as ih =>
    simp only [List.map_cons]
    rw [if_neg (hl a (List.mem_cons_self a as)),
      ih (fun s hs => hl s (List.mem_cons_of_mem a hs))]

/-- Shared helper: indexing the normalized segment list. -/
theorem normalizeSegments_get? (now : String) (raws : List RawSegment) (i : Nat) :
    (normalizeSegments now raws).get? i = (raws.get? i).map (normalizeOne now i) := by
  simp only [normalizeSegments, List.get?_eq_getElem?, List.getElem?_map,
    List.getElem?_enum, Option.map_map]
  rfl

/-- Claim C1, counterexample: the analysis-completion handler (the
replaceAll of the spec) installs the provider list verbatim, so an
input not sorted by start_time leaves the collection unsorted. -/
theorem C1_counterexample :
    ¬ sortedByStart unsortedResult.segments ∧
    (applyAnalysisResult unsortedResult sampleItem).structural = unsortedResult.segments ∧
    ¬ sortedByStart (applyAnalysisResult unsortedResult sampleItem).structural := by
  refine ⟨by decide, rfl, by decide⟩

/-- Claim C1 as amended: every updateSegment call leaves the collection
sorted by start_time ascending, but replaceAll stores the result
segments exactly as received, so after replaceAll the collection is
sorted only if the provider list already was. -/
theorem C1_sort_invariant_amended :
    (∀ (segId : String) (u : SegmentPatch) (segs : List StructuralSegment),
        sortedByStart (updateSegments segId u segs)) ∧
    (∀ (r : AnalysisResult) (it : ArchivalAudioItem),
        (applyAnalysisResult r it).structural = r.segments) :=
  ⟨fun _ _ _ => sortedByStart_sortByStart _, fun _ _ => rfl⟩

/-- Claim C2, counterexample: on a collection that is not sorted (which
replaceAll can produce), updateSegment with an id matching no segment
still re-sorts, so the collection is not left byte-for-byte unchanged. -/
theorem C2_counterexample :
    updateSegments "nonexistent" emptyPatch [segHi, segLo] ≠ [segHi, segLo] := by
  decide

/-- Claim C2 as amended: on a collection sorted by start_time (the
state the store maintains after any updateSegment), updateSegment with
an id referencing no existing segment returns the collection unchanged,
and the operation is total so no error reaches the caller. -/
theorem C2_noop_on_sorted_amended :
    ∀ (segs : List StructuralSegment) (segId : String) (u : SegmentPatch),
      (∀ s ∈ segs, s.id ≠ segId) → sortedByStart segs →
      updateSegments segId u segs = segs := by
  intro segs segId u hid hsorted
  unfold updateSegments
  rw [map_patch_of_no_match segs hid, sortByStart_of_sorted hsorted]

/-- Witness for the amended claim C2 at a concrete sorted collection. -/
theorem C2_noop_witness :
    updateSegments "nonexistent" emptyPatch [segLo, segHi] = [segLo, segHi] :=
  C2_noop_on_sorted_amended [segLo, segHi] "nonexistent" emptyPatch
    (by decide) (by decide)

/-- Claim C3: after an updateSegment call targeting an existing
segment, the patched segment is in the resulting collection with
human_review_status forced to edited, whatever it was before, and with
generated_by, generated_at and generation_method untouched. -/
theorem C3_provenance_transition :
    ∀ (segs : List StructuralSegment) (segId : String) (u : SegmentPatch)
      (s : StructuralSegment), s ∈ segs → s.id = segId →
      patchSeg u s ∈ updateSegments segId u segs ∧
      (patchSeg u s).provenance.human_review_status = HumanReviewStatus.edited ∧
      (patchSeg u s).provenance.generated_by = s.provenance.generated_by ∧
      (patchSeg u s).provenance.generated_at = s.provenance.generated_at ∧
      (patchSeg u s).provenance.generation_method = s.provenance.generation_method := by
  intro segs segId u s hs hid
  exact ⟨patchSeg_mem_updateSegments hs hid, rfl, rfl, rfl, rfl⟩

/-- Witness for claim C3 at a concrete unreviewed segment. -/
theorem C3_provenance_witness :
    patchSeg emptyPatch segLo ∈ updateSegments "seg_1" emptyPatch [segLo] ∧
    (patchSeg emptyPatch segLo).provenance.human_review_status = HumanReviewStatus.edited ∧
    (patchSeg emptyPatch segLo).provenance.generated_by = segLo.provenance.generated_by ∧
    (patchSeg emptyPatch segLo).provenance.generated_at = segLo.provenance.generated_at ∧
    (patchSeg emptyPatch segLo).provenance.generation_method = segLo.provenance.generation_method :=
  C3_provenance_transition [segLo] "seg_1" emptyPatch segLo
    (List.mem_singleton.mpr rfl) rfl

/-- Claim C4, counterexample: a patch carrying a confidence value does
change the targeted segment confidence, because the source spreads the
whole updates object over the segment. -/
theorem C4_counterexample :
    (updateSegments "seg_1" confPatch [segLo]).map (fun s => s.confidence)
        = [(9 : ℚ)/10] ∧
    segLo.confidence = (1 : ℚ)/2 ∧
    ¬ ((9 : ℚ)/10 = (1 : ℚ)/2) := by
  refine ⟨rfl, rfl, by norm_num⟩

/-- Claim C4 as amended: updateSegment never changes the provenance
generator and timestamps, even when the patch carries a provenance
value; id, confidence and alternatives are preserved only when the
patch does not supply them (no caller in the app does). -/
theorem C4_frame_amended :
    ∀ (segs : List StructuralSegment) (segId : String) (u : SegmentPatch)
      (s : StructuralSegment), s ∈ segs → s.id = segId →
      patchSeg u s ∈ updateSegments segId u segs ∧
      (patchSeg u s).provenance.generated_by = s.provenance.generated_by ∧
      (patchSeg u s).provenance.generated_at = s.provenance.generated_at ∧
      (patchSeg u s).provenance.generation_method = s.provenance.generation_method ∧
      (u.id = none → (patchSeg u s).id = s.id) ∧
      (u.confidence = none → (patchSeg u s).confidence = s.confidence) ∧
      (u.alternatives = none → (patchSeg u s).alternatives = s.alternatives) := by
  intro segs segId u s hs hid
  refine ⟨patchSeg_mem_updateSegments hs hid, rfl, rfl, rfl, ?_, ?_, ?_⟩
  · intro h; simp [patchSeg, h]
  · intro h; simp [patchSeg, h]
  · intro h; simp [patchSeg, h]

/-- Witness for the amended claim C4 at the confidence-carrying patch. -/
theorem C4_frame_witness :
    patchSeg confPatch segLo ∈ updateSegments "seg_1" confPatch [segLo] ∧
    (patchSeg confPatch segLo).provenance.generated_by = segLo.provenance.generated_by ∧
    (patchSeg confPatch segLo).provenance.generated_at = segLo.provenance.generated_at ∧
    (patchSeg confPatch segLo).provenance.generation_method = segLo.provenance.generation_method ∧
    (confPatch.id = none → (patchSeg confPatch segLo).id = segLo.id) ∧
    (confPatch.confidence = none → (patchSeg confPatch segLo).confidence = segLo.confidence) ∧
    (confPatch.alternatives = none → (patchSeg confPatch segLo).alternatives = segLo.alternatives) :=
  C4_frame_amended [segLo] "seg_1" confPatch segLo (List.mem_singleton.mpr rfl) rfl

/-- Claim C5, divergence at the failing input: after resetApp, a stale
analysis completion leaves the item cleared (the functional update maps
over none) but still drives the analysis state to COMPLETED, and when a
new session item already exists the stale segments overwrite it. -/
theorem C5_stale_completion_applied :
    (resetApp runningApp).state = AnalysisState.IDLE ∧
    (analysisCompletionSuccess staleResult (resetApp runningApp)).state
        = AnalysisState.COMPLETED ∧
    (analysisCompletionSuccess staleResult (resetApp runningApp)).item = none ∧
    ((analysisCompletionSuccess staleResult
        { resetApp runningApp with item := some newSessionItem }).item).map
      (fun it => it.structural) = some staleResult.segments ∧
    newSessionItem.structural ≠ staleResult.segments := by
  refine ⟨rfl, rfl, rfl, rfl, by decide⟩

/-- Claim C6, counterexample: a transcription failure is caught by the
single outer catch of processBlob, which reports the generic critical
ingest message, not the provider message. -/
theorem C6_counterexample :
    (processBlob "rec.wav" "ARCH_2024_1" "blob:1" (Except.ok "abc123") 120 1000
        (Except.error "ElevenLabs transcription failed.") (Except.ok staleResult)
        idleApp).state = AnalysisState.ERROR ∧
    (processBlob "rec.wav" "ARCH_2024_1" "blob:1" (Except.ok "abc123") 120 1000
        (Except.error "ElevenLabs transcription failed.") (Except.ok staleResult)
        idleApp).error = some "Critical ingest error." ∧
    (some "Critical ingest error." : Option String)
        ≠ some "ElevenLabs transcription failed." := by
  refine ⟨rfl, rfl, by decide⟩

/-- Claim C6 as amended: a transcription failure terminates the
pipeline in the ERROR state, but the surfaced message is always the
generic critical-ingest message, whatever the provider said. -/
theorem C6_amended_generic_error :
    ∀ (fileName identifier url checksum : String) (duration : ℚ) (fileSize : Nat)
      (msg : String) (analyzeRes : Except String AnalysisResult) (app : AppModel),
      (processBlob fileName identifier url (Except.ok checksum) duration fileSize
          (Except.error msg) analyzeRes app).state = AnalysisState.ERROR ∧
      (processBlob fileName identifier url (Except.ok checksum) duration fileSize
          (Except.error msg) analyzeRes app).error = some "Critical ingest error." := by
  intro fileName identifier url checksum duration fileSize msg analyzeRes app
  exact ⟨rfl, rfl⟩

/-- Claim C7, counterexample: the fixed header schema has 92 fields,
not 90. -/
theorem C7_counterexample :
    ARCHIVAL_CSV_HEADERS.length = 92 ∧ ¬ (ARCHIVAL_CSV_HEADERS.length = 90) := by
  decide

/-- Claim C7 as amended: the export writes the fixed 92-field header
row in schema order; a value containing a comma, double quote or
newline is wrapped in double quotes with internal quotes doubled (the
sample value from the claim serializes as required); a missing field
serializes as the empty string. -/
theorem C7_csv_amended :
    (∀ m : DescriptiveMetadata,
        exportCSVContent m = String.intercalate "," ARCHIVAL_CSV_HEADERS ++ "\n" ++
          String.intercalate "," (ARCHIVAL_CSV_HEADERS.map (csvField m))) ∧
    ARCHIVAL_CSV_HEADERS.length = 92 ∧
    (∀ v : String,
        (containsChar v ',' = true ∨ containsChar v '"' = true ∨
          containsChar v '\n' = true) →
        csvEscape v = "\"" ++ escapeQuotes v ++ "\"") ∧
    csvEscape "He said, \"go\"" = "\"He said, \"\"go\"\"\"" ∧
    (∀ (m : DescriptiveMetadata) (h : String), dmGet m h = none → csvField m h = "") := by
  refine ⟨fun m => rfl, by decide, ?_, by decide, ?_⟩
  · intro v hv
    rcases hv with h | h | h <;> simp [csvEscape, h]
  · intro m h hm
    simp [csvField, hm, csvEscape, containsChar]

/-- Witness for the amended claim C7 at concrete inputs. -/
theorem C7_csv_witness :
    exportCSVContent ([] : DescriptiveMetadata)
        = String.intercalate "," ARCHIVAL_CSV_HEADERS ++ "\n" ++
          String.intercalate "," (ARCHIVAL_CSV_HEADERS.map (csvField ([] : DescriptiveMetadata))) ∧
    csvEscape "a,b" = "\"" ++ escapeQuotes "a,b" ++ "\"" ∧
    csvField ([] : DescriptiveMetadata) "title" = "" :=
  ⟨C7_csv_amended.1 ([] : DescriptiveMetadata),
   C7_csv_amended.2.2.1 "a,b" (Or.inl (by decide)),
   C7_csv_amended.2.2.2.2 ([] : DescriptiveMetadata) "title" rfl⟩

/-- Claim C8: the display projection derives the category of a segment
from its type by the fixed rule, renders the tempo from the lower bound
of a present tempo range only, and takes the performer from the first
entry of a present non-empty performers list. -/
theorem C8_projection_rules :
    ∀ s : StructuralSegment,
      ((s.type = SegmentType.Tune ∨ s.type = SegmentType.Song) →
        (projectSegment s).category = Category.music) ∧
      (s.type = SegmentType.Speech → (projectSegment s).category = Category.speech) ∧
      ((s.type = SegmentType.Silence ∨ s.type = SegmentType.Other) →
        (projectSegment s).category = Category.other) ∧
      (∀ (m : SegmentMetadata) (low : ℚ) (rest : List ℚ),
        s.segment_metadata = some m → m.tempo_bpm_range = some (low :: rest) →
        (projectSegment s).metadata.tempo = some (toString low ++ " BPM")) ∧
      (∀ (m : SegmentMetadata) (p : String) (ps : List String),
        s.segment_metadata = some m → m.performers = some (p :: ps) →
        (projectSegment s).metadata.performer = some p) := by
  intro s
  refine ⟨?_, ?_, ?_, ?_, ?_⟩
  · rintro (h | h) <;> simp [projectSegment, categoryOf, h]
  · intro h; simp [projectSegment, categoryOf, h]
  · rintro (h | h) <;> simp [projectSegment, categoryOf, h]
  · intro m low rest h1 h2
    simp [projectSegment, h1, h2]
  · intro m p ps h1 h2
    simp [projectSegment, h1, h2]

/-- Witness for claim C8 at a concrete tune segment with a tempo range
and performers. -/
theorem C8_projection_witness :
    (projectSegment tuneSeg).category = Category.music ∧
    (projectSegment tuneSeg).metadata.tempo = some (toString (80 : ℚ) ++ " BPM") ∧
    (projectSegment tuneSeg).metadata.performer = some "Fiddler" :=
  ⟨(C8_projection_rules tuneSeg).1 (Or.inl rfl),
   (C8_projection_rules tuneSeg).2.2.2.1 tuneMeta 80 [100] rfl rfl,
   (C8_projection_rules tuneSeg).2.2.2.2 tuneMeta "Fiddler" [] rfl rfl⟩

/-- Claim C9: the analyze-endpoint normalization tolerates missing
fields: a missing id becomes the synthesized sequential seg_(i+1) for
the zero-based index i, a missing confidence becomes 0.6, and missing
segment metadata becomes the empty metadata object. -/
theorem C9_normalization_defaults :
    ∀ (now : String) (raws : List RawSegment) (i : Nat) (r : RawSegment),
      raws.get? i = some r →
      (normalizeSegments now raws).get? i = some (normalizeOne now i r) ∧
      (r.id = none → (normalizeOne now i r).id = "seg_" ++ toString (i + 1)) ∧
      (r.confidence = none → (normalizeOne now i r).confidence = 0.6) ∧
      (r.segment_metadata = none →
        (normalizeOne now i r).segment_metadata = some emptySegmentMetadata) := by
  intro now raws i r hr
  refine ⟨?_, ?_, ?_, ?_⟩
  · rw [normalizeSegments_get?, hr]; rfl
  · intro h; simp [normalizeOne, jsOrStr, h]
  · intro h; simp [normalizeOne, h]
  · intro h; simp [normalizeOne, h]

/-- Witness for claim C9 at a raw segment with every field absent. -/
theorem C9_normalization_witness :
    (normalizeSegments "2024-01-01T00:00:00Z" [rawBare]).get? 0
        = some (normalizeOne "2024-01-01T00:00:00Z" 0 rawBare) ∧
    (rawBare.id = none →
      (normalizeOne "2024-01-01T00:00:00Z" 0 rawBare).id = "seg_" ++ toString (0 + 1)) ∧
    (rawBare.confidence = none →
      (normalizeOne "2024-01-01T00:00:00Z" 0 rawBare).confidence = 0.6) ∧
    (rawBare.segment_metadata = none →
      (normalizeOne "2024-01-01T00:00:00Z" 0 rawBare).segment_metadata
        = some emptySegmentMetadata) :=
  C9_normalization_defaults "2024-01-01T00:00:00Z" [rawBare] 0 rawBare rfl

/-- Claim C10: every normalized segment carries the fixed provenance
record (generator gemini-2.5-flash, method segment_analysis, status
unreviewed), whatever provenance the raw model output contained, so a
freshly analyzed collection is entirely unreviewed. -/
theorem C10_fixed_provenance :
    ∀ (now : String) (raws : List RawSegment) (s : StructuralSegment),
      s ∈ normalizeSegments now raws →
      s.provenance =
        { generated_by := "gemini-2.5-flash"
          generated_at := now
          generation_method := "segment_analysis"
          human_review_status := HumanReviewStatus.unreviewed
          human_reviewer := none } ∧
      s.provenance.human_review_status = HumanReviewStatus.unreviewed := by
  intro now raws s hs
  rcases List.mem_map.mp hs with ⟨p, hp, rfl⟩
  exact ⟨rfl, rfl⟩

/-- Witness for claim C10 at a raw segment that volunteers a contrary
provenance record, which the normalization discards. -/
theorem C10_fixed_provenance_witness :
    (normalizeOne "2024-02-02T00:00:00Z" 0 rawWithProv).provenance =
      { generated_by := "gemini-2.5-flash"
        generated_at := "2024-02-02T00:00:00Z"
        generation_method := "segment_analysis"
        human_review_status := HumanReviewStatus.unreviewed
        human_reviewer := none } ∧
    (normalizeOne "2024-02-02T00:00:00Z" 0 rawWithProv).provenance.human_review_status
        = HumanReviewStatus.unreviewed :=
  C10_fixed_provenance "2024-02-02T00:00:00Z" [rawWithProv]
    (normalizeOne "2024-02-02T00:00:00Z" 0 rawWithProv) (List.mem_singleton.mpr rfl)

end Soundarc
